import Mathlib

/-!
Shallow embedding of the vit-cord server (socket.io chat / random-matchmaking hub).

The authoritative source is the full server variant (rooms + random pairing +
WebRTC signaling relay).  Global mutable state (`rooms`, `randomWaitingQueue`,
`randomPairs`, socket registry `io.sockets.sockets`, and the socket.io adapter's
room membership) is modelled as an explicit `ServerState` record; each socket.io
event handler becomes a pure function from state and inputs to the new state,
the list of emitted events and the acknowledgment value passed to the callback.
JS `Map`s and plain objects used as keyed stores are modelled as association
lists with first-match lookup; `Map.set` / property assignment / `delete` become
`mapSet` / `mapDelete` (observationally equivalent for lookup and deletion).
-/

namespace VitCord

/-- Lookup in an association list keyed by strings (JS `Map.get` / `obj[k]`). -/
def mapGet {α : Type} (m : List (String × α)) (k : String) : Option α :=
  match m with
  | [] => none
  | (k', v) :: rest => if k' = k then some v else mapGet rest k

/-- Removal of a key (JS `Map.delete` / `delete obj[k]`). -/
def mapDelete {α : Type} (m : List (String × α)) (k : String) : List (String × α) :=
  match m with
  | [] => []
  | (k', v) :: rest => if k' = k then mapDelete rest k else (k', v) :: mapDelete rest k

/-- Binding a key to a value (JS `Map.set` / `obj[k] = v`). -/
def mapSet {α : Type} (m : List (String × α)) (k : String) (v : α) : List (String × α) :=
  (k, v) :: mapDelete m k

/-- Per-connection session data (`socket.data`). -/
structure SocketData where
  roomId : Option String := none
  username : Option String := none
  randomName : Option String := none
deriving DecidableEq

/-- A room record (`rooms[roomId]`). `createdAt` is an abstract timestamp. -/
structure Room where
  maxSeats : Nat
  createdAt : Nat
  users : List String
  isPublic : Bool
  password : Option String
deriving DecidableEq

/-- An entry of the public room directory returned by `getPublicRooms`. -/
structure PublicRoomEntry where
  roomId : String
  maxSeats : Nat
  currentUsers : Nat
  createdAt : Nat
deriving DecidableEq

/-- Which of the three signaling payload kinds a relay message carries. -/
inductive SignalKind where
  | offer
  | answer
  | ice
deriving DecidableEq

/-- Outbound server events (socket.io `emit`s), with their routing target. -/
inductive Event where
  | publicRoomsAll (dir : List PublicRoomEntry)
  | publicRoomsTo (sid : String) (dir : List PublicRoomEntry)
  | userJoined (roomId : String) (username : String) (sid : String) (users : List String)
  | roomState (sid : String) (roomId : String) (currentUsers : Nat) (users : List String)
  | userLeft (roomId : String) (username : Option String) (sid : String) (users : List String)
  | newMessage (roomId : String) (username : String) (message : String)
  | randomWaiting (sid : String)
  | randomMatched (sid : String) (partnerSocketId : String) (partnerName : String) (initiator : Bool)
  | randomDisconnected (sid : String)
  | randomSignal (kind : SignalKind) (sid : String) (fromSocketId : String)
      (fromUsername : String) (payload : String)
  | webrtcSignal (kind : SignalKind) (sid : String) (roomId : String) (fromSocketId : String)
      (fromUsername : Option String) (payload : String)
  | randomNewMessage (sid : String) (fromSocketId : String) (message : String)
deriving DecidableEq

/-- The socket an event is addressed to directly, when it is not a room/global
broadcast (`io.to(socketId).emit` / `socket.emit`). -/
def eventSocketTarget : Event → Option String
  | .publicRoomsAll _ => none
  | .publicRoomsTo sid _ => some sid
  | .userJoined _ _ _ _ => none
  | .roomState sid _ _ _ => some sid
  | .userLeft _ _ _ _ => none
  | .newMessage _ _ _ => none
  | .randomWaiting sid => some sid
  | .randomMatched sid _ _ _ => some sid
  | .randomDisconnected sid => some sid
  | .randomSignal _ sid _ _ _ => some sid
  | .webrtcSignal _ sid _ _ _ _ => some sid
  | .randomNewMessage sid _ _ => some sid

/-- Recognizes the public-room-directory refresh broadcast to all connections. -/
def isPublicRoomsBroadcast : Event → Bool
  | .publicRoomsAll _ => true
  | _ => false

/-- Acknowledgment value passed to the client callback. -/
structure Ack where
  success : Bool
  message : Option String := none
  status : Option String := none
deriving DecidableEq

/-- The whole in-memory server state: the `rooms` object, the matchmaking
queue, the pairing table, the live-socket registry and the socket.io adapter's
room membership (as (roomId, socketId) pairs, insertion ordered). -/
structure ServerState where
  rooms : List (String × Room)
  randomWaitingQueue : List String
  randomPairs : List (String × String)
  sockets : List (String × SocketData)
  adapter : List (String × String)
deriving DecidableEq

/-- JS `String.prototype.trim()` modelled structurally: strip leading and
trailing whitespace from the character list. -/
def jsTrim (s : String) : String :=
  ⟨((s.data.dropWhile Char.isWhitespace).reverse.dropWhile Char.isWhitespace).reverse⟩

/-- JS `String.prototype.slice(0, n)` modelled structurally. -/
def jsSlice (s : String) (n : Nat) : String :=
  ⟨s.data.take n⟩

/-- JS truthiness of an optional string (`undefined`/`null`/`""` are falsy). -/
def strTruthy : Option String → Bool
  | none => false
  | some v => v ≠ ""

/-- Members of an adapter room, in insertion order
(`io.sockets.adapter.rooms.get(roomId)`; an absent set reads as empty). -/
def adapterMembers (ad : List (String × String)) (roomId : String) : List String :=
  (ad.filter (fun e => e.1 = roomId)).map (fun e => e.2)

/-- `socket.join(roomId)`: the adapter room set gains the socket (set semantics). -/
def adapterJoin (ad : List (String × String)) (roomId sid : String) : List (String × String) :=
  if (roomId, sid) ∈ ad then ad else ad ++ [(roomId, sid)]

/-- `socket.leave(roomId)`. -/
def adapterLeave (ad : List (String × String)) (roomId sid : String) : List (String × String) :=
  ad.filter (fun e => ¬(e.1 = roomId ∧ e.2 = sid))

/-- On disconnect the transport removes the socket from every adapter room. -/
def adapterRemoveSocket (ad : List (String × String)) (sid : String) : List (String × String) :=
  ad.filter (fun e => ¬ e.2 = sid)

/-- Source `getUserCountInRoom`: 0 when the room record is absent, else the
adapter room size. -/
def getUserCountInRoom (st : ServerState) (roomId : String) : Nat :=
  if (mapGet st.rooms roomId).isNone then 0
  else (adapterMembers st.adapter roomId).length

/-- Source `getUsersInRoom`: usernames of adapter-room members whose session
has a truthy username. -/
def getUsersInRoom (st : ServerState) (roomId : String) : List String :=
  if (mapGet st.rooms roomId).isNone then []
  else (adapterMembers st.adapter roomId).filterMap (fun sid =>
    match mapGet st.sockets sid with
    | some d =>
      match d.username with
      | some u => if u = "" then none else some u
      | none => none
    | none => none)

/-- Source `isSocketInRoom`. -/
def isSocketInRoom (st : ServerState) (roomId sid : String) : Bool :=
  sid ∈ adapterMembers st.adapter roomId

/-- Insertion step for the `createdAt`-descending sort of the directory. -/
def insertByCreated (e : PublicRoomEntry) : List PublicRoomEntry → List PublicRoomEntry
  | [] => [e]
  | x :: xs => if x.createdAt ≤ e.createdAt then e :: x :: xs else x :: insertByCreated e xs

/-- Sort directory entries by `createdAt` descending (source `.sort`). -/
def sortByCreatedDesc : List PublicRoomEntry → List PublicRoomEntry
  | [] => []
  | x :: xs => insertByCreated x (sortByCreatedDesc xs)

/-- Source `getPublicRooms`: public rooms projected to directory entries,
newest first. -/
def getPublicRooms (st : ServerState) : List PublicRoomEntry :=
  sortByCreatedDesc ((st.rooms.filter (fun e => e.2.isPublic)).map (fun e =>
    { roomId := e.1, maxSeats := e.2.maxSeats,
      currentUsers := getUserCountInRoom st e.1, createdAt := e.2.createdAt }))

/-- Source `dequeueRandomSocket`: remove the first occurrence of the id from
the waiting queue (`indexOf` + `splice`). -/
def dequeueRandomSocket (q : List String) (sid : String) : List String :=
  match q with
  | [] => []
  | x :: rest => if x = sid then rest else x :: dequeueRandomSocket rest sid

/-- Source `getRandomPartner`: `randomPairs.get(socketId) || null`
(an empty-string value is falsy and reads as null). -/
def getRandomPartner (ps : List (String × String)) (sid : String) : Option String :=
  match mapGet ps sid with
  | some p => if p = "" then none else some p
  | none => none

/-- Source `clearRandomPair`: delete both directions of the pairing and
return the former partner, if any. -/
def clearRandomPair (ps : List (String × String)) (sid : String) :
    List (String × String) × Option String :=
  match getRandomPartner ps sid with
  | none => (ps, none)
  | some p => (mapDelete (mapDelete ps sid) p, some p)

/-- Source `isRandomPair`: `randomPairs.get(socketId) === targetSocketId`. -/
def isRandomPair (ps : List (String × String)) (sid targetSocketId : String) : Bool :=
  mapGet ps sid = some targetSocketId

/-- `socket.data.randomName || 'Stranger'` display-name fallback. -/
def displayName : Option String → String
  | some v => if v = "" then "Stranger" else v
  | none => "Stranger"

/-- The `while` loop of `tryMatchRandomUser`, recursing on the waiting queue:
returns the remaining queue, the pairing table, the emitted events and whether
a match was made.  Shifted entries that are skipped are not re-enqueued. -/
def tryMatchLoop (st : ServerState) (s : String) : List String →
    List String × List (String × String) × List Event × Bool
  | [] => ([s], st.randomPairs, [Event.randomWaiting s], false)
  | c :: rest =>
    if c = "" ∨ c = s then tryMatchLoop st s rest
    else
      match mapGet st.sockets c with
      | none => tryMatchLoop st s rest
      | some cd =>
        if (getRandomPartner st.randomPairs c).isSome then tryMatchLoop st s rest
        else
          let sd := (mapGet st.sockets s).getD {}
          (rest,
           mapSet (mapSet st.randomPairs s c) c s,
           [Event.randomMatched s c (displayName cd.randomName) true,
            Event.randomMatched c s (displayName sd.randomName) false],
           true)

/-- Source `tryMatchRandomUser`: drop the requester from the queue, then scan
head-to-tail for the first usable candidate. -/
def tryMatchRandomUser (st : ServerState) (s : String) : ServerState × List Event × Bool :=
  let q := dequeueRandomSocket st.randomWaitingQueue s
  let r := tryMatchLoop st s q
  ({ st with randomWaitingQueue := r.1, randomPairs := r.2.1 }, r.2.2.1, r.2.2.2)

/-- Source `endRandomSession`: defensive dequeue, clear any pairing, and
notify the former partner when requested. -/
def endRandomSession (st : ServerState) (sid : String) (notifyPartner : Bool) :
    ServerState × List Event :=
  let st1 := { st with randomWaitingQueue := dequeueRandomSocket st.randomWaitingQueue sid }
  match clearRandomPair st1.randomPairs sid with
  | (_, none) => (st1, [])
  | (ps', some p) =>
    ({ st1 with randomPairs := ps' },
     if notifyPartner then [Event.randomDisconnected p] else [])

/-- Mutation of `socket.data` fields for a (live) socket. -/
def updateSocketData (socks : List (String × SocketData)) (sid : String)
    (f : SocketData → SocketData) : List (String × SocketData) :=
  match mapGet socks sid with
  | none => socks
  | some d => mapSet socks sid (f d)

/-- Inputs of the `createRoom` event. -/
structure CreateRoomArgs where
  roomId : String
  maxSeats : Nat
  username : String
  isPublic : Bool := true
  password : String := ""
deriving DecidableEq

/-- The `createRoom` handler.  `now` stands for `new Date()`. -/
def handleCreateRoom (st : ServerState) (sid : String) (a : CreateRoomArgs) (now : Nat) :
    ServerState × List Event × Ack :=
  if a.roomId = "" ∨ a.maxSeats = 0 ∨ a.username = "" then
    (st, [], { success := false, message := some "Missing required fields" })
  else if a.maxSeats < 1 ∨ a.maxSeats > 100 then
    (st, [], { success := false, message := some "Maximum seats must be between 1 and 100" })
  else
    let normalizedPassword := jsTrim a.password
    if a.isPublic = false ∧
        (normalizedPassword = "" ∨ normalizedPassword.length < 4 ∨
          normalizedPassword.length > 50) then
      (st, [], { success := false,
                 message := some "Password must be 4 to 50 characters for private rooms" })
    else if (mapGet st.rooms a.roomId).isSome then
      (st, [], { success := false, message := some "Room ID already exists" })
    else
      let room : Room :=
        { maxSeats := a.maxSeats, createdAt := now, users := [a.username],
          isPublic := a.isPublic,
          password := if a.isPublic then none else some normalizedPassword }
      let st2 : ServerState :=
        { st with
          rooms := mapSet st.rooms a.roomId room,
          sockets := updateSocketData st.sockets sid
            (fun d => { d with roomId := some a.roomId, username := some a.username }),
          adapter := adapterJoin st.adapter a.roomId sid }
      (st2,
       [Event.userJoined a.roomId a.username sid (getUsersInRoom st2 a.roomId),
        Event.roomState sid a.roomId 1 (getUsersInRoom st2 a.roomId),
        Event.publicRoomsAll (getPublicRooms st2)],
       { success := true, message := some "Room created successfully" })

/-- Inputs of the `joinRoom` event. -/
structure JoinRoomArgs where
  roomId : String
  username : String
  password : String := ""
deriving DecidableEq

/-- The `joinRoom` handler. -/
def handleJoinRoom (st : ServerState) (sid : String) (a : JoinRoomArgs) :
    ServerState × List Event × Ack :=
  if a.roomId = "" ∨ a.username = "" then
    (st, [], { success := false, message := some "Missing required fields" })
  else
    match mapGet st.rooms a.roomId with
    | none => (st, [], { success := false, message := some "Room does not exist" })
    | some room =>
      let currentUsers := getUserCountInRoom st a.roomId
      if room.isPublic = false ∧ ¬ (some (jsTrim a.password) = room.password) then
        (st, [], { success := false, message := some "Incorrect room password" })
      else if currentUsers ≥ room.maxSeats then
        (st, [], { success := false, message := some "Room is full" })
      else if a.username ∈ getUsersInRoom st a.roomId then
        (st, [], { success := false, message := some "Username already taken in this room" })
      else
        let st2 : ServerState :=
          { st with
            sockets := updateSocketData st.sockets sid
              (fun d => { d with roomId := some a.roomId, username := some a.username }),
            adapter := adapterJoin st.adapter a.roomId sid }
        (st2,
         [Event.userJoined a.roomId a.username sid (getUsersInRoom st2 a.roomId),
          Event.roomState sid a.roomId (currentUsers + 1) (getUsersInRoom st2 a.roomId),
          Event.publicRoomsAll (getPublicRooms st2)],
         { success := true, message := some "Joined room successfully" })

/-- The `leaveRoom` handler (fire and forget, no acknowledgment). -/
def handleLeaveRoom (st : ServerState) (sid : String) : ServerState × List Event :=
  let d := (mapGet st.sockets sid).getD {}
  match d.roomId with
  | none => (st, [])
  | some roomId =>
    if roomId = "" then (st, [])
    else
      let st1 : ServerState := { st with adapter := adapterLeave st.adapter roomId sid }
      let ev1 := Event.userLeft roomId d.username sid (getUsersInRoom st1 roomId)
      let st2 : ServerState :=
        if getUserCountInRoom st1 roomId = 0 then
          { st1 with rooms := mapDelete st1.rooms roomId }
        else st1
      let st3 : ServerState :=
        { st2 with
          sockets := updateSocketData st2.sockets sid
            (fun d => { d with roomId := none, username := none }) }
      (st3, [ev1, Event.publicRoomsAll (getPublicRooms st3)])

/-- The `randomJoin` handler. -/
def handleRandomJoin (st : ServerState) (sid : String) (username : String) :
    ServerState × List Event × Ack :=
  let rn0 := jsSlice (jsTrim username) 30
  let rn := if rn0 = "" then "Stranger" else rn0
  let st1 : ServerState :=
    { st with
      sockets := updateSocketData st.sockets sid (fun d => { d with randomName := some rn }) }
  if (getRandomPartner st1.randomPairs sid).isSome then
    (st1, [], { success := true, status := some "paired" })
  else
    let r := tryMatchRandomUser st1 sid
    (r.1, r.2.1, { success := true, status := some "searching" })

/-- The `randomNext` handler: end the current session (notifying the partner)
and immediately look for the next stranger. -/
def handleRandomNext (st : ServerState) (sid : String) :
    ServerState × List Event × Ack :=
  let r := endRandomSession st sid true
  let m := tryMatchRandomUser r.1 sid
  (m.1, r.2 ++ m.2.1, { success := true })

/-- The `randomLeave` handler. -/
def handleRandomLeave (st : ServerState) (sid : String) :
    ServerState × List Event × Ack :=
  let r := endRandomSession st sid true
  ({ r.1 with randomWaitingQueue := dequeueRandomSocket r.1.randomWaitingQueue sid },
   r.2, { success := true })

/-- The validation message of each random/room signaling kind. -/
def invalidPayloadMsg : SignalKind → String
  | .offer => "Invalid offer payload"
  | .answer => "Invalid answer payload"
  | .ice => "Invalid ICE payload"

/-- The `randomOffer` / `randomAnswer` / `randomIceCandidate` handlers (all
three have the same shape).  These handlers never mutate state, so only the
emitted events and the acknowledgment are returned.  `payload` is the opaque
offer/answer/candidate value; `none` models a missing field. -/
def handleRandomSignal (st : ServerState) (sid : String) (kind : SignalKind)
    (targetSocketId : String) (payload : Option String) : List Event × Ack :=
  if targetSocketId = "" ∨ strTruthy payload = false then
    ([], { success := false, message := some (invalidPayloadMsg kind) })
  else if ¬ isRandomPair st.randomPairs sid targetSocketId then
    ([], { success := false, message := some "Target is not your active random partner" })
  else
    let d := (mapGet st.sockets sid).getD {}
    ([Event.randomSignal kind targetSocketId sid (displayName d.randomName) (payload.getD "")],
     { success := true })

/-- The `webrtcOffer` / `webrtcAnswer` / `webrtcIceCandidate` handlers (all
three have the same shape); state is never mutated. -/
def handleWebrtcSignal (st : ServerState) (sid : String) (kind : SignalKind)
    (roomId targetSocketId : String) (payload : Option String) : List Event × Ack :=
  if roomId = "" ∨ targetSocketId = "" ∨ strTruthy payload = false then
    ([], { success := false, message := some (invalidPayloadMsg kind) })
  else
    let d := (mapGet st.sockets sid).getD {}
    if ¬ (d.roomId = some roomId) then
      ([], { success := false, message := some "Sender is not in this room" })
    else if ¬ isSocketInRoom st roomId targetSocketId then
      ([], { success := false, message := some "Target user not in room" })
    else
      ([Event.webrtcSignal kind targetSocketId roomId sid d.username (payload.getD "")],
       { success := true })

/-- The `disconnect` handler.  By the time it runs the transport has already
removed the socket from the registry and from every adapter room; `socket.data`
is still readable on the closure's socket object. -/
def handleDisconnect (st : ServerState) (sid : String) : ServerState × List Event :=
  let d := (mapGet st.sockets sid).getD {}
  let st0 : ServerState :=
    { st with
      sockets := mapDelete st.sockets sid,
      adapter := adapterRemoveSocket st.adapter sid }
  let roomPart : ServerState × List Event :=
    match d.roomId, d.username with
    | some roomId, some username =>
      if roomId = "" ∨ username = "" then (st0, [])
      else
        let ev1 := Event.userLeft roomId (some username) sid (getUsersInRoom st0 roomId)
        let st1 : ServerState :=
          if getUserCountInRoom st0 roomId = 0 then
            { st0 with rooms := mapDelete st0.rooms roomId }
          else st0
        (st1, [ev1, Event.publicRoomsAll (getPublicRooms st1)])
    | _, _ => (st0, [])
  let r := endRandomSession roomPart.1 sid true
  ({ r.1 with randomWaitingQueue := dequeueRandomSocket r.1.randomWaitingQueue sid },
   roomPart.2 ++ r.2)

/-- A scanned queue entry the matching loop skips: a falsy id, the requester
itself, a dead connection, or a candidate that already has a partner. -/
def RejectsCandidate (st : ServerState) (s c : String) : Prop :=
  c = "" ∨ c = s ∨ mapGet st.sockets c = none ∨ (getRandomPartner st.randomPairs c).isSome

instance (st : ServerState) (s c : String) : Decidable (RejectsCandidate st s c) := by
  unfold RejectsCandidate
  infer_instance

/-- A queue entry the matching loop pairs with: not the requester, live, and
currently unpaired. -/
def AcceptsCandidate (st : ServerState) (s c : String) : Prop :=
  c ≠ "" ∧ c ≠ s ∧ (mapGet st.sockets c).isSome ∧ getRandomPartner st.randomPairs c = none

instance (st : ServerState) (s c : String) : Decidable (AcceptsCandidate st s c) := by
  unfold AcceptsCandidate
  infer_instance

/-- Symmetry of the pairing table: if A maps to B then B maps to A. -/
def PairsSymm (ps : List (String × String)) : Prop :=
  ∀ a b, mapGet ps a = some b → mapGet ps b = some a

/-- The pairing table never involves the empty (falsy) id, on either side. -/
def PairsNonempty (ps : List (String × String)) : Prop :=
  ∀ a b, mapGet ps a = some b → a ≠ "" ∧ b ≠ ""

/-- The matchmaking invariant: symmetric pairing table over nonempty ids, a
duplicate-free waiting queue, and no connection both queued and paired. -/
structure MatchInv (st : ServerState) : Prop where
  symm : PairsSymm st.randomPairs
  nonempty : PairsNonempty st.randomPairs
  nodup : st.randomWaitingQueue.Nodup
  disj : ∀ x ∈ st.randomWaitingQueue, mapGet st.randomPairs x = none

/-- The empty server state at process start. -/
def initState : ServerState :=
  { rooms := [], randomWaitingQueue := [], randomPairs := [], sockets := [], adapter := [] }

/-- One server transition: a new connection, or one inbound event handled for a
live connection.  Transport-assigned socket ids are nonempty strings. -/
inductive Step : ServerState → ServerState → Prop where
  | connect (st : ServerState) (sid : String) (h : sid ≠ "")
      (hfresh : mapGet st.sockets sid = none) :
      Step st { st with sockets := mapSet st.sockets sid {} }
  | createRoom (st : ServerState) (sid : String) (a : CreateRoomArgs) (now : Nat)
      (h : sid ≠ "") : Step st (handleCreateRoom st sid a now).1
  | joinRoom (st : ServerState) (sid : String) (a : JoinRoomArgs) (h : sid ≠ "") :
      Step st (handleJoinRoom st sid a).1
  | leaveRoom (st : ServerState) (sid : String) (h : sid ≠ "") :
      Step st (handleLeaveRoom st sid).1
  | randomJoin (st : ServerState) (sid : String) (username : String) (h : sid ≠ "") :
      Step st (handleRandomJoin st sid username).1
  | randomNext (st : ServerState) (sid : String) (h : sid ≠ "") :
      Step st (handleRandomNext st sid).1
  | randomLeave (st : ServerState) (sid : String) (h : sid ≠ "") :
      Step st (handleRandomLeave st sid).1
  | disconnect (st : ServerState) (sid : String) (h : sid ≠ "") :
      Step st (handleDisconnect st sid).1

/-- States reachable from process start by any sequence of transitions. -/
def Reachable (st : ServerState) : Prop :=
  Relation.ReflTransGen Step initState st

/-- Concrete scenario: one idle live connection `A`. -/
def oneSocketState : ServerState :=
  { initState with sockets := mapSet initState.sockets "A" {} }

/-- Concrete scenario: two idle live connections `A` and `B`
(the state after two `connection` events on a fresh server). -/
def twoSocketState : ServerState :=
  { oneSocketState with sockets := mapSet oneSocketState.sockets "B" {} }

/-- Concrete scenario: the state after `A` enqueues and then `B` enqueues,
pairing the two. -/
def pairedState : ServerState :=
  (handleRandomJoin (handleRandomJoin twoSocketState "A" "alice").1 "B" "bob").1

/-- Concrete scenario: live connections `A` and `B`; the waiting queue holds a
stale id `X` (dead connection) ahead of `B`. -/
def scanState : ServerState :=
  { twoSocketState with randomWaitingQueue := ["X", "B"] }

/-- Concrete scenario: a public room `r` with one seat, occupied by the single
live connection `A` under username `u`. -/
def fullLobbyState : ServerState :=
  { rooms := [("r", { maxSeats := 1, createdAt := 0, users := ["u"],
                      isPublic := true, password := none })],
    randomWaitingQueue := [],
    randomPairs := [],
    sockets := [("A", { roomId := some "r", username := some "u", randomName := none })],
    adapter := [("r", "A")] }

/-! Basic lemmas about the association-list maps and the waiting queue. -/

theorem mapGet_mapDelete_self {α : Type} (m : List (String × α)) (k : String) :
    mapGet (mapDelete m k) k = none := by
  induction m with
  | nil => rfl
  | cons e rest ih =>
    obtain ⟨k', v⟩ := e
    by_cases h : k' = k
    · simp [mapDelete, h, ih]
    · simp [mapDelete, mapGet, h, ih]

theorem mapGet_mapDelete_ne {α : Type} (m : List (String × α)) {k k' : String}
    (h : k' ≠ k) : mapGet (mapDelete m k) k' = mapGet m k' := by
  induction m with
  | nil => rfl
  | cons e rest ih =>
    obtain ⟨a, v⟩ := e
    simp only [mapDelete, mapGet]
    by_cases ha : a = k
    · rw [if_pos ha, ih]
      have hak : ¬ a = k' := fun hh => h (hh.symm.trans ha)
      rw [if_neg hak]
    · rw [if_neg ha]
      by_cases ha' : a = k'
      · simp [mapGet, ha']
      · simp [mapGet, ha', ih]

theorem mapGet_mapSet_self {α : Type} (m : List (String × α)) (k : String) (v : α) :
    mapGet (mapSet m k v) k = some v := by
  simp [mapSet, mapGet]

theorem mapGet_mapSet_ne {α : Type} (m : List (String × α)) {k k' : String} (v : α)
    (h : k' ≠ k) : mapGet (mapSet m k v) k' = mapGet m k' := by
  simp only [mapSet, mapGet]
  rw [if_neg (fun hh : k = k' => h hh.symm)]
  exact mapGet_mapDelete_ne m h

theorem mapGet_eq_none_iff {α : Type} (m : List (String × α)) (k : String) :
    mapGet m k = none ↔ ∀ e ∈ m, e.1 ≠ k := by
  induction m with
  | nil => simp [mapGet]
  | cons e rest ih =>
    obtain ⟨a, v⟩ := e
    by_cases h : a = k
    · simp [mapGet, h]
    · simp [mapGet, h, ih]

theorem dequeue_sublist (q : List String) (sid : String) :
    List.Sublist (dequeueRandomSocket q sid) q := by
  induction q with
  | nil => simp [dequeueRandomSocket]
  | cons x rest ih =>
    by_cases h : x = sid
    · rw [dequeueRandomSocket, if_pos h]
      exact List.sublist_cons_self x rest
    · rw [dequeueRandomSocket, if_neg h]
      exact ih.cons₂ x

theorem mem_of_mem_dequeue {q : List String} {sid x : String}
    (h : x ∈ dequeueRandomSocket q sid) : x ∈ q :=
  (dequeue_sublist q sid).mem h

theorem dequeue_nodup {q : List String} (sid : String) (h : q.Nodup) :
    (dequeueRandomSocket q sid).Nodup :=
  (dequeue_sublist q sid).nodup h

theorem not_mem_dequeue_self {q : List String} (sid : String) (h : q.Nodup) :
    sid ∉ dequeueRandomSocket q sid := by
  induction q with
  | nil => simp [dequeueRandomSocket]
  | cons x rest ih =>
    rcases List.nodup_cons.mp h with ⟨hx, hrest⟩
    by_cases hxs : x = sid
    · subst hxs
      simpa [dequeueRandomSocket] using hx
    · simpa [dequeueRandomSocket, hxs] using ⟨fun hh => hxs hh.symm, ih hrest⟩

theorem dequeue_of_not_mem {q : List String} {sid : String} (h : sid ∉ q) :
    dequeueRandomSocket q sid = q := by
  induction q with
  | nil => rfl
  | cons x rest ih =>
    simp only [List.mem_cons, not_or] at h
    have hx : ¬ x = sid := fun hh => h.1 hh.symm
    simp [dequeueRandomSocket, hx, ih h.2]

theorem dequeue_append_not_mem {q1 : List String} (q2 : List String) {sid : String}
    (h : sid ∉ q1) : dequeueRandomSocket (q1 ++ sid :: q2) sid = q1 ++ q2 := by
  induction q1 with
  | nil => simp [dequeueRandomSocket]
  | cons x rest ih =>
    simp only [List.mem_cons, not_or] at h
    have hx : ¬ x = sid := fun hh => h.1 hh.symm
    simp [dequeueRandomSocket, hx, ih h.2]

/-! Behaviour of the matching scan. -/

theorem tryMatchLoop_skip (st : ServerState) (s c : String) (rest : List String)
    (h : RejectsCandidate st s c) :
    tryMatchLoop st s (c :: rest) = tryMatchLoop st s rest := by
  rcases h with h | h | h | h
  · simp [tryMatchLoop, h]
  · simp [tryMatchLoop, h]
  · by_cases hcs : c = "" ∨ c = s
    · simp [tryMatchLoop, hcs]
    · simp [tryMatchLoop, hcs, h]
  · by_cases hcs : c = "" ∨ c = s
    · simp [tryMatchLoop, hcs]
    · cases hsock : mapGet st.sockets c with
      | none => simp [tryMatchLoop, hcs, hsock]
      | some cd => simp [tryMatchLoop, hcs, hsock, h]

theorem tryMatchLoop_all_reject (st : ServerState) (s : String) (q : List String)
    (h : ∀ x ∈ q, RejectsCandidate st s x) :
    tryMatchLoop st s q = ([s], st.randomPairs, [Event.randomWaiting s], false) := by
  induction q with
  | nil => rfl
  | cons c rest ih =>
    rw [tryMatchLoop_skip st s c rest (h c (List.mem_cons_self c rest))]
    exact ih (fun x hx => h x (List.mem_cons_of_mem c hx))

theorem tryMatchLoop_match (st : ServerState) (s c : String) (pre post : List String)
    (hpre : ∀ x ∈ pre, RejectsCandidate st s x) (hc : AcceptsCandidate st s c) :
    tryMatchLoop st s (pre ++ c :: post) =
      (post, mapSet (mapSet st.randomPairs s c) c s,
       [Event.randomMatched s c (displayName (((mapGet st.sockets c).getD {}).randomName)) true,
        Event.randomMatched c s (displayName (((mapGet st.sockets s).getD {}).randomName)) false],
       true) := by
  induction pre with
  | nil =>
    obtain ⟨h1, h2, h3, h4⟩ := hc
    obtain ⟨cd, hcd⟩ := Option.isSome_iff_exists.mp h3
    simp [tryMatchLoop, h1, h2, hcd, h4]
  | cons x rest ih =>
    rw [List.cons_append,
      tryMatchLoop_skip st s x _ (hpre x (List.mem_cons_self x rest))]
    exact ih (fun y hy => hpre y (List.mem_cons_of_mem x hy))

/-! Lemmas about the pairing table and the matchmaking invariant. -/

theorem getRandomPartner_eq_some {ps : List (String × String)} {sid p : String}
    (h : getRandomPartner ps sid = some p) : mapGet ps sid = some p ∧ p ≠ "" := by
  cases hmg : mapGet ps sid with
  | none => simp [getRandomPartner, hmg] at h
  | some v =>
    by_cases hv : v = ""
    · simp [getRandomPartner, hmg, hv] at h
    · simp [getRandomPartner, hmg, hv] at h
      subst h
      exact ⟨rfl, hv⟩

theorem mapGet_eq_none_of_partner_none {ps : List (String × String)}
    (hne : PairsNonempty ps) {c : String} (h : getRandomPartner ps c = none) :
    mapGet ps c = none := by
  cases hmg : mapGet ps c with
  | none => rfl
  | some v =>
    have hv := (hne c v hmg).2
    simp [getRandomPartner, hmg, hv] at h

theorem mapGet_clear_aux (ps : List (String × String)) (sid p x : String) :
    mapGet (mapDelete (mapDelete ps sid) p) x =
      if x = p then none else if x = sid then none else mapGet ps x := by
  by_cases hxp : x = p
  · simp [hxp, mapGet_mapDelete_self]
  · rw [mapGet_mapDelete_ne _ hxp, if_neg hxp]
    by_cases hxs : x = sid
    · simp [hxs, mapGet_mapDelete_self]
    · rw [mapGet_mapDelete_ne _ hxs, if_neg hxs]

theorem mapGet_after_match (ps : List (String × String)) {s c : String} (x : String)
    (hxs : x ≠ s) (hxc : x ≠ c) :
    mapGet (mapSet (mapSet ps s c) c s) x = mapGet ps x := by
  rw [mapGet_mapSet_ne _ _ hxc, mapGet_mapSet_ne _ _ hxs]

theorem pairsSymm_after_match {ps : List (String × String)} {s c : String}
    (hsym : PairsSymm ps) (hs : mapGet ps s = none) (hcnone : mapGet ps c = none)
    (hsc : s ≠ c) : PairsSymm (mapSet (mapSet ps s c) c s) := by
  intro a b hab
  by_cases hac : a = c
  · subst hac
    rw [mapGet_mapSet_self] at hab
    cases hab
    rw [mapGet_mapSet_ne _ _ hsc, mapGet_mapSet_self]
  · rw [mapGet_mapSet_ne _ _ hac] at hab
    by_cases has : a = s
    · subst has
      rw [mapGet_mapSet_self] at hab
      cases hab
      rw [mapGet_mapSet_self]
    · rw [mapGet_mapSet_ne _ _ has] at hab
      have hbs : b ≠ s := by
        intro hh
        subst hh
        exact (Option.some_ne_none a (by rw [← hsym a b hab]; exact hs.symm ▸ rfl)).elim
      have hbc : b ≠ c := by
        intro hh
        subst hh
        have := hsym a b hab
        rw [hcnone] at this
        cases this
      rw [mapGet_after_match ps b hbs hbc]
      exact hsym a b hab

theorem pairsNonempty_after_match {ps : List (String × String)} {s c : String}
    (hne : PairsNonempty ps) (hs : s ≠ "") (hc : c ≠ "") :
    PairsNonempty (mapSet (mapSet ps s c) c s) := by
  intro a b hab
  by_cases hac : a = c
  · subst hac
    rw [mapGet_mapSet_self] at hab
    cases hab
    exact ⟨hc, hs⟩
  · rw [mapGet_mapSet_ne _ _ hac] at hab
    by_cases has : a = s
    · subst has
      rw [mapGet_mapSet_self] at hab
      cases hab
      exact ⟨hs, hc⟩
    · rw [mapGet_mapSet_ne _ _ has] at hab
      exact hne a b hab

theorem tryMatchLoop_inv {st : ServerState} {s : String} (q : List String)
    (hs : s ≠ "") (hsym : PairsSymm st.randomPairs) (hne : PairsNonempty st.randomPairs)
    (hq : q.Nodup) (hqmem : ∀ x ∈ q, mapGet st.randomPairs x = none)
    (hsq : s ∉ q) (hself : mapGet st.randomPairs s = none) :
    PairsSymm (tryMatchLoop st s q).2.1 ∧ PairsNonempty (tryMatchLoop st s q).2.1 ∧
    (tryMatchLoop st s q).1.Nodup ∧
    ∀ x ∈ (tryMatchLoop st s q).1, mapGet (tryMatchLoop st s q).2.1 x = none := by
  induction q with
  | nil =>
    refine ⟨hsym, hne, by simp [tryMatchLoop], ?_⟩
    intro x hx
    simp [tryMatchLoop] at hx
    simpa [tryMatchLoop, hx] using hself
  | cons c rest ih =>
    rcases List.nodup_cons.mp hq with ⟨hcr, hrest⟩
    simp only [List.mem_cons, not_or] at hsq
    by_cases hrej : RejectsCandidate st s c
    · rw [tryMatchLoop_skip st s c rest hrej]
      exact ih hrest (fun x hx => hqmem x (List.mem_cons_of_mem c hx)) hsq.2
    · have hacc : AcceptsCandidate st s c := by
        unfold RejectsCandidate at hrej
        push_neg at hrej
        exact ⟨hrej.1, hrej.2.1, Option.ne_none_iff_isSome.mp hrej.2.2.1,
          Option.not_isSome_iff_eq_none.mp (by simpa using hrej.2.2.2)⟩
      have hloop := tryMatchLoop_match st s c [] rest (by intro x hx; cases hx) hacc
      rw [List.nil_append] at hloop
      rw [hloop]
      have hcnone : mapGet st.randomPairs c = none :=
        mapGet_eq_none_of_partner_none hne hacc.2.2.2
      have hsc : s ≠ c := fun hh => hacc.2.1 hh.symm
      refine ⟨pairsSymm_after_match hsym hself hcnone hsc,
        pairsNonempty_after_match hne hs hacc.1, hrest, ?_⟩

      intro x hx
      have hxs : x ≠ s := fun hh => hsq.2 (hh ▸ hx)
      have hxc : x ≠ c := fun hh => hcr (hh ▸ hx)
      rw [mapGet_after_match _ x hxs hxc]
      exact hqmem x (List.mem_cons_of_mem c hx)

theorem tryMatchRandomUser_inv {st : ServerState} {s : String} (hs : s ≠ "")
    (h : MatchInv st) (hself : mapGet st.randomPairs s = none) :
    MatchInv (tryMatchRandomUser st s).1 := by
  have hq := dequeue_nodup s h.nodup
  have hmem : ∀ x ∈ dequeueRandomSocket st.randomWaitingQueue s,
      mapGet st.randomPairs x = none :=
    fun x hx => h.disj x (mem_of_mem_dequeue hx)
  have hsq := not_mem_dequeue_self s h.nodup
  obtain ⟨h1, h2, h3, h4⟩ :=
    tryMatchLoop_inv (dequeueRandomSocket st.randomWaitingQueue s) hs h.symm h.nonempty
      hq hmem hsq hself
  exact ⟨h1, h2, h3, h4⟩

theorem clearRandomPair_closed {ps : List (String × String)} (sid : String)
    (hsym : PairsSymm ps) (hne : PairsNonempty ps) :
    PairsSymm (clearRandomPair ps sid).1 ∧ PairsNonempty (clearRandomPair ps sid).1 ∧
    mapGet (clearRandomPair ps sid).1 sid = none ∧
    ∀ x, mapGet ps x = none → mapGet (clearRandomPair ps sid).1 x = none := by
  cases hgp : getRandomPartner ps sid with
  | none =>
    simp only [clearRandomPair, hgp]
    exact ⟨hsym, hne, mapGet_eq_none_of_partner_none hne hgp, fun x hx => hx⟩
  | some p =>
    obtain ⟨hmg, hp⟩ := getRandomPartner_eq_some hgp
    simp only [clearRandomPair, hgp]
    refine ⟨?_, ?_, ?_, ?_⟩
    · intro a b hab
      rw [mapGet_clear_aux] at hab
      by_cases hap : a = p
      · rw [if_pos hap] at hab
        cases hab
      · rw [if_neg hap] at hab
        by_cases has : a = sid
        · rw [if_pos has] at hab
          cases hab
        · rw [if_neg has] at hab
          have hbs : b ≠ sid := by
            intro hh
            rw [hh] at hab
            have h3 : p = a := Option.some.inj (hmg.symm.trans (hsym a sid hab))
            exact hap h3.symm
          have hbp : b ≠ p := by
            intro hh
            rw [hh] at hab
            have h1 := hsym a p hab
            have h2 := hsym sid p hmg
            exact has (Option.some.inj (h2.symm.trans h1)).symm
          rw [mapGet_clear_aux, if_neg hbp, if_neg hbs]
          exact hsym a b hab
    · intro a b hab
      rw [mapGet_clear_aux] at hab
      by_cases hap : a = p
      · rw [if_pos hap] at hab; cases hab
      · rw [if_neg hap] at hab
        by_cases has : a = sid
        · rw [if_pos has] at hab; cases hab
        · rw [if_neg has] at hab
          exact hne a b hab
    · rw [mapGet_clear_aux]
      by_cases hsp : sid = p
      · rw [if_pos hsp]
      · rw [if_neg hsp, if_pos rfl]
    · intro x hx
      rw [mapGet_clear_aux]
      by_cases hxp : x = p
      · rw [if_pos hxp]
      · rw [if_neg hxp]
        by_cases hxs : x = sid
        · rw [if_pos hxs]
        · rw [if_neg hxs]
          exact hx

theorem endRandomSession_inv {st : ServerState} {sid : String} (b : Bool)
    (h : MatchInv st) :
    MatchInv (endRandomSession st sid b).1 ∧
    mapGet (endRandomSession st sid b).1.randomPairs sid = none ∧
    (endRandomSession st sid b).1.randomWaitingQueue =
      dequeueRandomSocket st.randomWaitingQueue sid := by
  cases hgp : getRandomPartner st.randomPairs sid with
  | none =>
    have hnone : mapGet st.randomPairs sid = none :=
      mapGet_eq_none_of_partner_none h.nonempty hgp
    have hres : endRandomSession st sid b =
        ({ st with randomWaitingQueue := dequeueRandomSocket st.randomWaitingQueue sid },
         []) := by
      simp [endRandomSession, clearRandomPair, hgp]
    rw [hres]
    exact ⟨⟨h.symm, h.nonempty, dequeue_nodup sid h.nodup,
      fun x hx => h.disj x (mem_of_mem_dequeue hx)⟩, hnone, rfl⟩
  | some p =>
    have hres : endRandomSession st sid b =
        ({ st with
            randomWaitingQueue := dequeueRandomSocket st.randomWaitingQueue sid,
            randomPairs := mapDelete (mapDelete st.randomPairs sid) p },
         if b then [Event.randomDisconnected p] else []) := by
      simp [endRandomSession, clearRandomPair, hgp]
    rw [hres]
    obtain ⟨hc1, hc2, hc3, hc4⟩ := clearRandomPair_closed sid h.symm h.nonempty
    rw [show (clearRandomPair st.randomPairs sid).1 =
        mapDelete (mapDelete st.randomPairs sid) p by
      simp [clearRandomPair, hgp]] at hc1 hc2 hc3 hc4
    exact ⟨⟨hc1, hc2, dequeue_nodup sid h.nodup,
      fun x hx => hc4 x (h.disj x (mem_of_mem_dequeue hx))⟩, hc3, rfl⟩

theorem matchInv_congr {st st' : ServerState} (hp : st'.randomPairs = st.randomPairs)
    (hq : st'.randomWaitingQueue = st.randomWaitingQueue) (h : MatchInv st) : MatchInv st' :=
  ⟨hp ▸ h.symm, hp ▸ h.nonempty, hq ▸ h.nodup,
   fun x hx => by rw [hp]; exact h.disj x (hq ▸ hx)⟩

theorem handleCreateRoom_queue_pairs (st : ServerState) (sid : String) (a : CreateRoomArgs)
    (now : Nat) :
    (handleCreateRoom st sid a now).1.randomPairs = st.randomPairs ∧
    (handleCreateRoom st sid a now).1.randomWaitingQueue = st.randomWaitingQueue := by
  simp only [handleCreateRoom]
  split_ifs <;> exact ⟨rfl, rfl⟩

theorem handleJoinRoom_queue_pairs (st : ServerState) (sid : String) (a : JoinRoomArgs) :
    (handleJoinRoom st sid a).1.randomPairs = st.randomPairs ∧
    (handleJoinRoom st sid a).1.randomWaitingQueue = st.randomWaitingQueue := by
  simp only [handleJoinRoom]
  split
  · exact ⟨rfl, rfl⟩
  · split
    · exact ⟨rfl, rfl⟩
    · split_ifs <;> exact ⟨rfl, rfl⟩

theorem handleLeaveRoom_queue_pairs (st : ServerState) (sid : String) :
    (handleLeaveRoom st sid).1.randomPairs = st.randomPairs ∧
    (handleLeaveRoom st sid).1.randomWaitingQueue = st.randomWaitingQueue := by
  simp only [handleLeaveRoom]
  split
  · exact ⟨rfl, rfl⟩
  · split_ifs <;> exact ⟨rfl, rfl⟩

theorem endThenDequeue_inv {st : ServerState} {sid : String} (h : MatchInv st) :
    MatchInv { (endRandomSession st sid true).1 with
      randomWaitingQueue :=
        dequeueRandomSocket (endRandomSession st sid true).1.randomWaitingQueue sid } := by
  obtain ⟨h1, _, _⟩ := endRandomSession_inv true h
  exact ⟨h1.symm, h1.nonempty, dequeue_nodup sid h1.nodup,
    fun x hx => h1.disj x (mem_of_mem_dequeue hx)⟩

theorem handleRandomJoin_inv {st : ServerState} {sid : String} (u : String)
    (hs : sid ≠ "") (h : MatchInv st) : MatchInv (handleRandomJoin st sid u).1 := by
  have h1 : ∀ f : SocketData → SocketData,
      MatchInv { st with sockets := updateSocketData st.sockets sid f } :=
    fun f => ⟨h.symm, h.nonempty, h.nodup, h.disj⟩
  simp only [handleRandomJoin]
  cases hgp : getRandomPartner st.randomPairs sid with
  | some p =>
    simp only [hgp, Option.isSome_some, if_true]
    exact h1 _
  | none =>
    simp only [hgp, Option.isSome_none, Bool.false_eq_true, if_false]
    exact tryMatchRandomUser_inv hs (h1 _)
      (mapGet_eq_none_of_partner_none h.nonempty hgp)

theorem handleRandomNext_inv {st : ServerState} {sid : String}
    (hs : sid ≠ "") (h : MatchInv st) : MatchInv (handleRandomNext st sid).1 := by
  simp only [handleRandomNext]
  obtain ⟨h1, h2, _⟩ := endRandomSession_inv true h
  exact tryMatchRandomUser_inv hs h1 h2

theorem handleRandomLeave_inv {st : ServerState} {sid : String}
    (h : MatchInv st) : MatchInv (handleRandomLeave st sid).1 := by
  simp only [handleRandomLeave]
  exact endThenDequeue_inv h

theorem handleDisconnect_inv {st : ServerState} {sid : String}
    (h : MatchInv st) : MatchInv (handleDisconnect st sid).1 := by
  simp only [handleDisconnect]
  apply endThenDequeue_inv
  split
  · split
    · exact ⟨h.symm, h.nonempty, h.nodup, h.disj⟩
    · split
      · exact ⟨h.symm, h.nonempty, h.nodup, h.disj⟩
      · exact ⟨h.symm, h.nonempty, h.nodup, h.disj⟩
  · exact ⟨h.symm, h.nonempty, h.nodup, h.disj⟩

theorem matchInv_step {st st' : ServerState} (h : MatchInv st) (hs : Step st st') :
    MatchInv st' := by
  cases hs with
  | connect sid h1 h2 => exact ⟨h.symm, h.nonempty, h.nodup, h.disj⟩
  | createRoom sid a now h1 =>
    obtain ⟨hp, hq⟩ := handleCreateRoom_queue_pairs st sid a now
    exact matchInv_congr hp hq h
  | joinRoom sid a h1 =>
    obtain ⟨hp, hq⟩ := handleJoinRoom_queue_pairs st sid a
    exact matchInv_congr hp hq h
  | leaveRoom sid h1 =>
    obtain ⟨hp, hq⟩ := handleLeaveRoom_queue_pairs st sid
    exact matchInv_congr hp hq h
  | randomJoin sid u h1 => exact handleRandomJoin_inv u h1 h
  | randomNext sid h1 => exact handleRandomNext_inv h1 h
  | randomLeave sid h1 => exact handleRandomLeave_inv h
  | disconnect sid h1 => exact handleDisconnect_inv h

theorem matchInv_init : MatchInv initState := by
  refine ⟨?_, ?_, ?_, ?_⟩
  · intro a b hab
    simp [initState, mapGet] at hab
  · intro a b hab
    simp [initState, mapGet] at hab
  · simp [initState]
  · intro x hx
    simp [initState] at hx

theorem reachable_matchInv {st : ServerState} (h : Reachable st) : MatchInv st := by
  induction h with
  | refl => exact matchInv_init
  | tail _ hstep ih => exact matchInv_step ih hstep

theorem reachable_twoSocketState : Reachable twoSocketState := by
  have h1 : Step initState oneSocketState :=
    Step.connect initState "A" (by decide) rfl
  have h2 : Step oneSocketState twoSocketState :=
    Step.connect oneSocketState "B" (by decide) rfl
  exact Relation.ReflTransGen.tail (Relation.ReflTransGen.single h1) h2

theorem reachable_pairedState : Reachable pairedState := by
  have h1 : Step twoSocketState (handleRandomJoin twoSocketState "A" "alice").1 :=
    Step.randomJoin twoSocketState "A" "alice" (by decide)
  have h2 : Step (handleRandomJoin twoSocketState "A" "alice").1 pairedState :=
    Step.randomJoin (handleRandomJoin twoSocketState "A" "alice").1 "B" "bob" (by decide)
  exact Relation.ReflTransGen.tail (Relation.ReflTransGen.tail reachable_twoSocketState h1) h2

/-- C2: the pairing table is symmetric in every reachable state (entries are
created and removed only in matched pairs, so a one-sided mapping never
occurs), and concretely after `enqueue(A)` then `enqueue(B)` on two idle
connections the two are paired mutually and neither remains in the waiting
queue. -/
theorem pairing_table_symmetric :
    (∀ st : ServerState, Reachable st → ∀ a b,
      mapGet st.randomPairs a = some b → mapGet st.randomPairs b = some a) ∧
    (mapGet pairedState.randomPairs "A" = some "B" ∧
     mapGet pairedState.randomPairs "B" = some "A" ∧
     "A" ∉ pairedState.randomWaitingQueue ∧ "B" ∉ pairedState.randomWaitingQueue) := by
  constructor
  · intro st hst
    exact (reachable_matchInv hst).symm
  · exact ⟨by decide, by decide, by decide, by decide⟩

theorem pairing_table_symmetric_witness :
    mapGet pairedState.randomPairs "B" = some "A" :=
  pairing_table_symmetric.1 pairedState reachable_pairedState "A" "B" (by decide)

/-- C8: in every reachable state the matchmaking queue holds no duplicate
connection ids and no connection sits in the waiting queue and the pairing
table at once; and concretely enqueuing `A` twice in a row leaves the queue
holding `A` exactly once. -/
theorem queue_no_duplicates :
    (∀ st : ServerState, Reachable st →
      st.randomWaitingQueue.Nodup ∧
      ∀ x ∈ st.randomWaitingQueue, mapGet st.randomPairs x = none) ∧
    (handleRandomJoin (handleRandomJoin oneSocketState "A" "ann").1 "A"
      "ann").1.randomWaitingQueue = ["A"] := by
  constructor
  · intro st hst
    exact ⟨(reachable_matchInv hst).nodup, (reachable_matchInv hst).disj⟩
  · decide

theorem queue_no_duplicates_witness :
    pairedState.randomWaitingQueue.Nodup :=
  (queue_no_duplicates.1 pairedState reachable_pairedState).1

theorem tryMatchRandomUser_match (st : ServerState) (s c : String) (pre post : List String)
    (hq : dequeueRandomSocket st.randomWaitingQueue s = pre ++ c :: post)
    (hpre : ∀ x ∈ pre, RejectsCandidate st s x) (hc : AcceptsCandidate st s c) :
    tryMatchRandomUser st s =
      ({ st with randomWaitingQueue := post,
                 randomPairs := mapSet (mapSet st.randomPairs s c) c s },
       [Event.randomMatched s c (displayName (((mapGet st.sockets c).getD {}).randomName)) true,
        Event.randomMatched c s
          (displayName (((mapGet st.sockets s).getD {}).randomName)) false],
       true) := by
  simp only [tryMatchRandomUser]
  rw [hq, tryMatchLoop_match st s c pre post hpre hc]

theorem tryMatchRandomUser_noMatch (st : ServerState) (s : String)
    (h : ∀ x ∈ dequeueRandomSocket st.randomWaitingQueue s, RejectsCandidate st s x) :
    tryMatchRandomUser st s =
      ({ st with randomWaitingQueue := [s] }, [Event.randomWaiting s], false) := by
  simp only [tryMatchRandomUser]
  rw [tryMatchLoop_all_reject st s _ h]

/-- C6: `tryMatchRandomUser` first removes the requester from the queue if
present, then scans head-to-tail: the first candidate that is not the
requester, is live and has no partner is paired symmetrically with the
requester and removed from the queue, the requester is signalled matched with
initiator=true and the candidate with initiator=false; skipped (stale or
otherwise unusable) entries are dropped and not re-enqueued; if no candidate
is found the requester ends up as the sole queued entry and is signalled
waiting. -/
theorem enqueue_scan_behavior :
    (∀ (q1 q2 : List String) (s : String), s ∉ q1 →
      dequeueRandomSocket (q1 ++ s :: q2) s = q1 ++ q2) ∧
    (∀ (st : ServerState) (s : String) (pre : List String) (c : String) (post : List String),
      dequeueRandomSocket st.randomWaitingQueue s = pre ++ c :: post →
      (∀ x ∈ pre, RejectsCandidate st s x) → AcceptsCandidate st s c →
      tryMatchRandomUser st s =
        ({ st with randomWaitingQueue := post,
                   randomPairs := mapSet (mapSet st.randomPairs s c) c s },
         [Event.randomMatched s c
            (displayName (((mapGet st.sockets c).getD {}).randomName)) true,
          Event.randomMatched c s
            (displayName (((mapGet st.sockets s).getD {}).randomName)) false],
         true)) ∧
    (∀ (st : ServerState) (s : String),
      (∀ x ∈ dequeueRandomSocket st.randomWaitingQueue s, RejectsCandidate st s x) →
      tryMatchRandomUser st s =
        ({ st with randomWaitingQueue := [s] }, [Event.randomWaiting s], false)) :=
  ⟨fun _ q2 _ h => dequeue_append_not_mem q2 h,
   fun st s pre c post hq hpre hc => tryMatchRandomUser_match st s c pre post hq hpre hc,
   fun st s h => tryMatchRandomUser_noMatch st s h⟩

theorem enqueue_scan_behavior_witness :
    tryMatchRandomUser scanState "A" =
      ({ scanState with
          randomWaitingQueue := [],
          randomPairs := [("B", "A"), ("A", "B")] },
       [Event.randomMatched "A" "B" "Stranger" true,
        Event.randomMatched "B" "A" "Stranger" false], true) :=
  (enqueue_scan_behavior.2.1 scanState "A" ["X"] "B" [] (by decide) (by decide)
    (by decide)).trans (by decide)

/-- C10: every queue entry the matching scan inspects and rejects (dead, equal
to the requester, or already paired) is permanently removed from the waiting
queue and receives no directly-addressed event; after a match only the entries
positioned after the accepted candidate remain queued, and in a fully-rejected
scan no inspected entry survives. -/
theorem scan_rejected_entries_dropped :
    (∀ (st : ServerState) (s : String) (pre : List String) (c : String) (post : List String),
      dequeueRandomSocket st.randomWaitingQueue s = pre ++ c :: post →
      (pre ++ c :: post).Nodup → s ∉ pre ++ c :: post →
      (∀ x ∈ pre, RejectsCandidate st s x) → AcceptsCandidate st s c →
      (tryMatchRandomUser st s).1.randomWaitingQueue = post ∧
      (∀ x ∈ pre, x ∉ (tryMatchRandomUser st s).1.randomWaitingQueue ∧
        ∀ e ∈ (tryMatchRandomUser st s).2.1, eventSocketTarget e ≠ some x)) ∧
    (∀ (st : ServerState) (s : String),
      (∀ x ∈ dequeueRandomSocket st.randomWaitingQueue s, RejectsCandidate st s x) →
      s ∉ dequeueRandomSocket st.randomWaitingQueue s →
      ∀ x ∈ dequeueRandomSocket st.randomWaitingQueue s,
        x ∉ (tryMatchRandomUser st s).1.randomWaitingQueue ∧
        ∀ e ∈ (tryMatchRandomUser st s).2.1, eventSocketTarget e ≠ some x) := by
  constructor
  · intro st s pre c post hq hnd hs hpre hc
    rw [tryMatchRandomUser_match st s c pre post hq hpre hc]
    rcases List.nodup_append.mp hnd with ⟨_, _, hdisj⟩
    refine ⟨rfl, ?_⟩
    intro x hx
    have hxc : x ≠ c := fun hh => hdisj hx (hh ▸ List.mem_cons_self c post)
    have hxpost : x ∉ post := fun hh => hdisj hx (List.mem_cons_of_mem c hh)
    have hxs : x ≠ s := fun hh => hs (hh ▸ List.mem_append.mpr (Or.inl hx))
    refine ⟨hxpost, ?_⟩
    intro e he
    simp only [List.mem_cons, List.not_mem_nil, or_false] at he
    rcases he with rfl | rfl
    · simpa [eventSocketTarget] using fun hh => hxs hh.symm
    · simpa [eventSocketTarget] using fun hh => hxc hh.symm
  · intro st s hrej hs x hx
    rw [tryMatchRandomUser_noMatch st s hrej]
    have hxs : x ≠ s := fun hh => hs (hh ▸ hx)
    refine ⟨by simpa using hxs, ?_⟩
    intro e he
    simp only [List.mem_cons, List.not_mem_nil, or_false] at he
    subst he
    simpa [eventSocketTarget] using fun hh => hxs hh.symm

theorem scan_rejected_entries_dropped_witness :
    (tryMatchRandomUser scanState "A").1.randomWaitingQueue = [] ∧
    "X" ∉ (tryMatchRandomUser scanState "A").1.randomWaitingQueue :=
  ⟨(scan_rejected_entries_dropped.1 scanState "A" ["X"] "B" [] (by decide) (by decide)
      (by decide) (by decide) (by decide)).1,
   ((scan_rejected_entries_dropped.1 scanState "A" ["X"] "B" [] (by decide) (by decide)
      (by decide) (by decide) (by decide)).2 "X" (by decide)).1⟩

/-- C1: a random-context signaling message whose sender is not paired with the
stated target fails with the Unauthorized-style message and emits nothing, and
it succeeds (forwarding to the target) only when the pairing check passes; a
room-context signaling message fails with an Unauthorized-style message and
emits nothing when the sender's bound room differs from the stated room or the
target is not a member of that room, and succeeds only when both hold. -/
theorem relay_requires_authorization :
    (∀ (st : ServerState) (sid : String) (kind : SignalKind) (target : String)
      (payload : Option String),
      target ≠ "" → strTruthy payload = true →
      isRandomPair st.randomPairs sid target = false →
      handleRandomSignal st sid kind target payload =
        ([], { success := false,
               message := some "Target is not your active random partner" })) ∧
    (∀ (st : ServerState) (sid : String) (kind : SignalKind) (target : String)
      (payload : Option String),
      (handleRandomSignal st sid kind target payload).2.success = true →
      isRandomPair st.randomPairs sid target = true ∧
      (handleRandomSignal st sid kind target payload).1 =
        [Event.randomSignal kind target sid
          (displayName (((mapGet st.sockets sid).getD {}).randomName)) (payload.getD "")]) ∧
    (∀ (st : ServerState) (sid : String) (kind : SignalKind) (roomId target : String)
      (payload : Option String),
      roomId ≠ "" → target ≠ "" → strTruthy payload = true →
      ¬(((mapGet st.sockets sid).getD {}).roomId = some roomId ∧
        isSocketInRoom st roomId target = true) →
      (handleWebrtcSignal st sid kind roomId target payload).1 = [] ∧
      (handleWebrtcSignal st sid kind roomId target payload).2.success = false ∧
      ((handleWebrtcSignal st sid kind roomId target payload).2.message =
          some "Sender is not in this room" ∨
       (handleWebrtcSignal st sid kind roomId target payload).2.message =
          some "Target user not in room")) ∧
    (∀ (st : ServerState) (sid : String) (kind : SignalKind) (roomId target : String)
      (payload : Option String),
      (handleWebrtcSignal st sid kind roomId target payload).2.success = true →
      ((mapGet st.sockets sid).getD {}).roomId = some roomId ∧
      isSocketInRoom st roomId target = true ∧
      (handleWebrtcSignal st sid kind roomId target payload).1 =
        [Event.webrtcSignal kind target roomId sid
          (((mapGet st.sockets sid).getD {}).username) (payload.getD "")]) := by
  refine ⟨?_, ?_, ?_, ?_⟩
  · intro st sid kind target payload ht hpay hpair
    simp [handleRandomSignal, ht, hpay, hpair]
  · intro st sid kind target payload hsucc
    simp only [handleRandomSignal] at hsucc ⊢
    split at hsucc
    · simp at hsucc
    · split at hsucc
      · simp at hsucc
      · next h1 h2 =>
        rw [Bool.not_eq_true, ← ne_eq, ne_eq, Bool.not_eq_false] at h2
        refine ⟨h2, ?_⟩
        rw [if_neg h1, if_neg ?_]
        rw [h2]
        simp
  · intro st sid kind roomId target payload hr ht hpay hauth
    simp only [handleWebrtcSignal]
    rw [if_neg (by simp [hr, ht, hpay])]
    by_cases hs : ((mapGet st.sockets sid).getD {}).roomId = some roomId
    · have htarget : isSocketInRoom st roomId target = false := by
        cases hmem : isSocketInRoom st roomId target
        · rfl
        · exact absurd ⟨hs, hmem⟩ hauth
      simp [hs, htarget]
    · simp [hs]
  · intro st sid kind roomId target payload hsucc
    simp only [handleWebrtcSignal] at hsucc ⊢
    split at hsucc
    · simp at hsucc
    · split at hsucc
      · simp at hsucc
      · split at hsucc
        · simp at hsucc
        · next h1 h2 h3 =>
          rw [not_not] at h2 h3
          refine ⟨h2, h3, ?_⟩
          rw [if_neg h1, if_neg (not_not_intro h2), if_neg (not_not_intro h3)]

theorem relay_requires_authorization_witness :
    handleRandomSignal initState "C" SignalKind.offer "B" (some "sdp") =
      ([], { success := false,
             message := some "Target is not your active random partner" }) :=
  relay_requires_authorization.1 initState "C" SignalKind.offer "B" (some "sdp")
    (by decide) (by decide) (by decide)

/-! Branch characterizations of `handleJoinRoom`. -/

theorem handleJoinRoom_notFound {st : ServerState} {sid : String} {a : JoinRoomArgs}
    (h1 : a.roomId ≠ "") (h2 : a.username ≠ "")
    (hroom : mapGet st.rooms a.roomId = none) :
    handleJoinRoom st sid a =
      (st, [], { success := false, message := some "Room does not exist" }) := by
  simp [handleJoinRoom, h1, h2, hroom]

theorem handleJoinRoom_wrongPassword {st : ServerState} {sid : String} {a : JoinRoomArgs}
    {room : Room} (h1 : a.roomId ≠ "") (h2 : a.username ≠ "")
    (hroom : mapGet st.rooms a.roomId = some room)
    (hpriv : room.isPublic = false) (hpw : ¬ (some (jsTrim a.password) = room.password)) :
    handleJoinRoom st sid a =
      (st, [], { success := false, message := some "Incorrect room password" }) := by
  simp [handleJoinRoom, h1, h2, hroom, hpriv, hpw]

theorem handleJoinRoom_full {st : ServerState} {sid : String} {a : JoinRoomArgs}
    {room : Room} (h1 : a.roomId ≠ "") (h2 : a.username ≠ "")
    (hroom : mapGet st.rooms a.roomId = some room)
    (hpw : room.isPublic = true ∨ some (jsTrim a.password) = room.password)
    (hfull : getUserCountInRoom st a.roomId ≥ room.maxSeats) :
    handleJoinRoom st sid a =
      (st, [], { success := false, message := some "Room is full" }) := by
  have hcond : ¬(room.isPublic = false ∧ ¬(some (jsTrim a.password) = room.password)) := by
    rcases hpw with h | h
    · simp [h]
    · simp [h]
  simp [handleJoinRoom, h1, h2, hroom, hcond, hfull]

theorem handleJoinRoom_conflict {st : ServerState} {sid : String} {a : JoinRoomArgs}
    {room : Room} (h1 : a.roomId ≠ "") (h2 : a.username ≠ "")
    (hroom : mapGet st.rooms a.roomId = some room)
    (hpw : room.isPublic = true ∨ some (jsTrim a.password) = room.password)
    (hnotfull : getUserCountInRoom st a.roomId < room.maxSeats)
    (hdup : a.username ∈ getUsersInRoom st a.roomId) :
    handleJoinRoom st sid a =
      (st, [], { success := false, message := some "Username already taken in this room" }) := by
  have hcond : ¬(room.isPublic = false ∧ ¬(some (jsTrim a.password) = room.password)) := by
    rcases hpw with h | h
    · simp [h]
    · simp [h]
  simp [handleJoinRoom, h1, h2, hroom, hcond, not_le.mpr hnotfull, hdup]

theorem handleJoinRoom_success_state {st : ServerState} {sid : String} {a : JoinRoomArgs}
    {room : Room} (h1 : a.roomId ≠ "") (h2 : a.username ≠ "")
    (hroom : mapGet st.rooms a.roomId = some room)
    (hpw : room.isPublic = true ∨ some (jsTrim a.password) = room.password)
    (hnotfull : getUserCountInRoom st a.roomId < room.maxSeats)
    (hnodup : a.username ∉ getUsersInRoom st a.roomId) :
    (handleJoinRoom st sid a).1 =
      { st with
        sockets := updateSocketData st.sockets sid
          (fun d => { d with roomId := some a.roomId, username := some a.username }),
        adapter := adapterJoin st.adapter a.roomId sid } ∧
    (handleJoinRoom st sid a).2.2 =
      { success := true, message := some "Joined room successfully" } := by
  have hcond : ¬(room.isPublic = false ∧ ¬(some (jsTrim a.password) = room.password)) := by
    rcases hpw with h | h
    · simp [h]
    · simp [h]
  constructor <;>
    simp [handleJoinRoom, h1, h2, hroom, hcond, not_le.mpr hnotfull, hnodup]

theorem handleJoinRoom_success_inv {st : ServerState} {sid : String} {a : JoinRoomArgs}
    (hsucc : (handleJoinRoom st sid a).2.2.success = true) :
    ∃ room, mapGet st.rooms a.roomId = some room ∧
      getUserCountInRoom st a.roomId < room.maxSeats ∧
      (handleJoinRoom st sid a).1 =
        { st with
          sockets := updateSocketData st.sockets sid
            (fun d => { d with roomId := some a.roomId, username := some a.username }),
          adapter := adapterJoin st.adapter a.roomId sid } := by
  by_cases h1 : a.roomId = ""
  · exfalso
    simp [handleJoinRoom, h1] at hsucc
  by_cases h2 : a.username = ""
  · exfalso
    simp [handleJoinRoom, h1, h2] at hsucc
  cases hroom : mapGet st.rooms a.roomId with
  | none =>
    exfalso
    rw [handleJoinRoom_notFound h1 h2 hroom] at hsucc
    simp at hsucc
  | some room =>
    by_cases hpw : room.isPublic = false ∧ ¬(some (jsTrim a.password) = room.password)
    · exfalso
      rw [handleJoinRoom_wrongPassword h1 h2 hroom hpw.1 hpw.2] at hsucc
      simp at hsucc
    · have hpw2 : room.isPublic = true ∨ some (jsTrim a.password) = room.password := by
        by_cases hp : room.isPublic = true
        · exact Or.inl hp
        · have hp2 : room.isPublic = false := by
            revert hp
            cases room.isPublic <;> simp
          push_neg at hpw
          exact Or.inr (hpw hp2)
      by_cases hfull : getUserCountInRoom st a.roomId ≥ room.maxSeats
      · exfalso
        rw [handleJoinRoom_full h1 h2 hroom hpw2 hfull] at hsucc
        simp at hsucc
      · by_cases hdup : a.username ∈ getUsersInRoom st a.roomId
        · exfalso
          rw [handleJoinRoom_conflict h1 h2 hroom hpw2 (not_le.mp hfull) hdup] at hsucc
          simp at hsucc
        · exact ⟨room, rfl, not_le.mp hfull,
            (handleJoinRoom_success_state h1 h2 hroom hpw2 (not_le.mp hfull) hdup).1⟩

theorem adapterMembers_join_length (ad : List (String × String)) (r s : String) :
    (adapterMembers (adapterJoin ad r s) r).length ≤ (adapterMembers ad r).length + 1 := by
  unfold adapterJoin
  split
  · exact Nat.le_succ _
  · simp [adapterMembers, List.filter_append]

theorem mem_adapterMembers_join (ad : List (String × String)) (r s : String) :
    s ∈ adapterMembers (adapterJoin ad r s) r := by
  unfold adapterJoin
  split
  · next hmem =>
    simp only [adapterMembers, List.mem_map, List.mem_filter]
    exact ⟨(r, s), ⟨hmem, by simp⟩, rfl⟩
  · simp [adapterMembers, List.filter_append]

/-- C3: after any successful joinRoom the room's member count is at most its
maxSeats, and a joinRoom attempted when the count has already reached maxSeats
fails with the Full message, changing no state and emitting nothing. -/
theorem join_respects_capacity :
    (∀ (st : ServerState) (sid : String) (a : JoinRoomArgs) (room : Room),
      mapGet st.rooms a.roomId = some room →
      (handleJoinRoom st sid a).2.2.success = true →
      getUserCountInRoom (handleJoinRoom st sid a).1 a.roomId ≤ room.maxSeats) ∧
    (∀ (st : ServerState) (sid : String) (a : JoinRoomArgs) (room : Room),
      a.roomId ≠ "" → a.username ≠ "" →
      mapGet st.rooms a.roomId = some room →
      (room.isPublic = true ∨ some (jsTrim a.password) = room.password) →
      getUserCountInRoom st a.roomId ≥ room.maxSeats →
      handleJoinRoom st sid a =
        (st, [], { success := false, message := some "Room is full" })) := by
  constructor
  · intro st sid a room hroom hsucc
    obtain ⟨room2, hroom2, hlt, hst⟩ := handleJoinRoom_success_inv hsucc
    rw [hroom] at hroom2
    cases hroom2
    rw [hst]
    have hb := adapterMembers_join_length st.adapter a.roomId sid
    simp only [getUserCountInRoom, hroom, Option.isNone_some, Bool.false_eq_true,
      if_false] at hlt ⊢
    omega
  · intro st sid a room h1 h2 hroom hpw hfull
    exact handleJoinRoom_full h1 h2 hroom hpw hfull

theorem join_respects_capacity_witness :
    handleJoinRoom fullLobbyState "B" { roomId := "r", username := "bob", password := "" } =
      (fullLobbyState, [], { success := false, message := some "Room is full" }) :=
  join_respects_capacity.2 fullLobbyState "B"
    { roomId := "r", username := "bob", password := "" }
    { maxSeats := 1, createdAt := 0, users := ["u"], isPublic := true, password := none }
    (by decide) (by decide) (by decide) (by decide) (by decide)

/-- C7: joinRoom fails with the NotFound message when the room is absent; with
the Unauthorized (wrong password) message when the room is private and the
trimmed supplied password differs from the stored one under exact string
comparison; with the Full message when the member count has reached maxSeats;
and with the Conflict message when the username exactly matches a current
member's; each failure returns the state unchanged with no events; when all
checks pass it succeeds and the connection is added as a room member. -/
theorem joinRoom_error_cases :
    (∀ (st : ServerState) (sid : String) (a : JoinRoomArgs),
      a.roomId ≠ "" → a.username ≠ "" → mapGet st.rooms a.roomId = none →
      handleJoinRoom st sid a =
        (st, [], { success := false, message := some "Room does not exist" })) ∧
    (∀ (st : ServerState) (sid : String) (a : JoinRoomArgs) (room : Room),
      a.roomId ≠ "" → a.username ≠ "" → mapGet st.rooms a.roomId = some room →
      room.isPublic = false → ¬ (some (jsTrim a.password) = room.password) →
      handleJoinRoom st sid a =
        (st, [], { success := false, message := some "Incorrect room password" })) ∧
    (∀ (st : ServerState) (sid : String) (a : JoinRoomArgs) (room : Room),
      a.roomId ≠ "" → a.username ≠ "" → mapGet st.rooms a.roomId = some room →
      (room.isPublic = true ∨ some (jsTrim a.password) = room.password) →
      getUserCountInRoom st a.roomId ≥ room.maxSeats →
      handleJoinRoom st sid a =
        (st, [], { success := false, message := some "Room is full" })) ∧
    (∀ (st : ServerState) (sid : String) (a : JoinRoomArgs) (room : Room),
      a.roomId ≠ "" → a.username ≠ "" → mapGet st.rooms a.roomId = some room →
      (room.isPublic = true ∨ some (jsTrim a.password) = room.password) →
      getUserCountInRoom st a.roomId < room.maxSeats →
      a.username ∈ getUsersInRoom st a.roomId →
      handleJoinRoom st sid a =
        (st, [],
         { success := false, message := some "Username already taken in this room" })) ∧
    (∀ (st : ServerState) (sid : String) (a : JoinRoomArgs) (room : Room),
      a.roomId ≠ "" → a.username ≠ "" → mapGet st.rooms a.roomId = some room →
      (room.isPublic = true ∨ some (jsTrim a.password) = room.password) →
      getUserCountInRoom st a.roomId < room.maxSeats →
      a.username ∉ getUsersInRoom st a.roomId →
      (handleJoinRoom st sid a).2.2 =
        { success := true, message := some "Joined room successfully" } ∧
      sid ∈ adapterMembers (handleJoinRoom st sid a).1.adapter a.roomId) := by
  refine ⟨?_, ?_, ?_, ?_, ?_⟩
  · intro st sid a h1 h2 hroom
    exact handleJoinRoom_notFound h1 h2 hroom
  · intro st sid a room h1 h2 hroom hpriv hpw
    exact handleJoinRoom_wrongPassword h1 h2 hroom hpriv hpw
  · intro st sid a room h1 h2 hroom hpw hfull
    exact handleJoinRoom_full h1 h2 hroom hpw hfull
  · intro st sid a room h1 h2 hroom hpw hlt hdup
    exact handleJoinRoom_conflict h1 h2 hroom hpw hlt hdup
  · intro st sid a room h1 h2 hroom hpw hlt hdup
    obtain ⟨hst, hack⟩ := handleJoinRoom_success_state h1 h2 hroom hpw hlt hdup
    refine ⟨hack, ?_⟩
    rw [hst]
    exact mem_adapterMembers_join st.adapter a.roomId sid

theorem joinRoom_error_cases_witness :
    handleJoinRoom initState "A" { roomId := "r", username := "u", password := "" } =
      (initState, [], { success := false, message := some "Room does not exist" }) :=
  joinRoom_error_cases.1 initState "A" { roomId := "r", username := "u", password := "" }
    (by decide) (by decide) (by decide)

/-! Room deletion when the last member departs. -/

theorem adapterMembers_leave_self (ad : List (String × String)) (r s : String)
    (h : ∀ x ∈ adapterMembers ad r, x = s) :
    adapterMembers (adapterLeave ad r s) r = [] := by
  have h2 : ∀ e ∈ ad, e.1 = r → e.2 = s := by
    intro e he her
    refine h e.2 ?_
    simp only [adapterMembers, List.mem_map, List.mem_filter]
    exact ⟨e, ⟨he, by simp [her]⟩, rfl⟩
  unfold adapterMembers adapterLeave
  rw [List.filter_filter, List.map_eq_nil_iff, List.filter_eq_nil_iff]
  intro e he
  by_cases her : e.1 = r
  · simp [her, h2 e he her]
  · simp [her]

theorem adapterMembers_removeSocket_self (ad : List (String × String)) (r s : String)
    (h : ∀ x ∈ adapterMembers ad r, x = s) :
    adapterMembers (adapterRemoveSocket ad s) r = [] := by
  have h2 : ∀ e ∈ ad, e.1 = r → e.2 = s := by
    intro e he her
    refine h e.2 ?_
    simp only [adapterMembers, List.mem_map, List.mem_filter]
    exact ⟨e, ⟨he, by simp [her]⟩, rfl⟩
  unfold adapterMembers adapterRemoveSocket
  rw [List.filter_filter, List.map_eq_nil_iff, List.filter_eq_nil_iff]
  intro e he
  by_cases her : e.1 = r
  · simp [her, h2 e he her]
  · simp [her]

theorem mem_insertByCreated {x e : PublicRoomEntry} {l : List PublicRoomEntry}
    (h : x ∈ insertByCreated e l) : x = e ∨ x ∈ l := by
  induction l with
  | nil => simpa [insertByCreated] using h
  | cons y ys ih =>
    simp only [insertByCreated] at h
    split at h
    · simpa using h
    · rcases List.mem_cons.mp h with h1 | h1
      · exact Or.inr (by simp [h1])
      · rcases ih h1 with h2 | h2
        · exact Or.inl h2
        · exact Or.inr (List.mem_cons_of_mem y h2)

theorem mem_sortByCreatedDesc {x : PublicRoomEntry} {l : List PublicRoomEntry}
    (h : x ∈ sortByCreatedDesc l) : x ∈ l := by
  induction l with
  | nil => simp [sortByCreatedDesc] at h
  | cons y ys ih =>
    simp only [sortByCreatedDesc] at h
    rcases mem_insertByCreated h with h1 | h1
    · simp [h1]
    · exact List.mem_cons_of_mem y (ih h1)

theorem getPublicRooms_key_absent {st : ServerState} {roomId : String}
    (h : mapGet st.rooms roomId = none) :
    ∀ e ∈ getPublicRooms st, e.roomId ≠ roomId := by
  intro e he
  have h1 := mem_sortByCreatedDesc he
  simp only [getPublicRooms, List.mem_map, List.mem_filter] at h1
  obtain ⟨entry, ⟨hmem, _⟩, rfl⟩ := h1
  intro hh
  exact (mapGet_eq_none_iff st.rooms roomId).mp h entry hmem (by simpa using hh)

theorem handleLeaveRoom_lastMember {st : ServerState} {sid : String} {d : SocketData}
    {roomId : String} (hd : mapGet st.sockets sid = some d) (hroom : d.roomId = some roomId)
    (hne : roomId ≠ "") (hlast : ∀ x ∈ adapterMembers st.adapter roomId, x = sid) :
    mapGet (handleLeaveRoom st sid).1.rooms roomId = none := by
  have hmem : adapterMembers (adapterLeave st.adapter roomId sid) roomId = [] :=
    adapterMembers_leave_self _ _ _ hlast
  have hcount :
      getUserCountInRoom { st with adapter := adapterLeave st.adapter roomId sid } roomId
        = 0 := by
    unfold getUserCountInRoom
    split
    · rfl
    · simp [hmem]
  simp only [handleLeaveRoom, hd, Option.getD_some, hroom]
  rw [if_neg hne, if_pos hcount]
  exact mapGet_mapDelete_self st.rooms roomId

theorem endRandomSession_rooms (st : ServerState) (sid : String) (b : Bool) :
    (endRandomSession st sid b).1.rooms = st.rooms := by
  cases hgp : getRandomPartner st.randomPairs sid <;>
    simp [endRandomSession, clearRandomPair, hgp]

theorem handleDisconnect_lastMember {st : ServerState} {sid : String} {d : SocketData}
    {roomId username : String} (hd : mapGet st.sockets sid = some d)
    (hroom : d.roomId = some roomId) (huser : d.username = some username)
    (hner : roomId ≠ "") (hneu : username ≠ "")
    (hlast : ∀ x ∈ adapterMembers st.adapter roomId, x = sid) :
    mapGet (handleDisconnect st sid).1.rooms roomId = none := by
  have hmem : adapterMembers (adapterRemoveSocket st.adapter sid) roomId = [] :=
    adapterMembers_removeSocket_self _ _ _ hlast
  have hcount :
      getUserCountInRoom
        { st with sockets := mapDelete st.sockets sid,
                  adapter := adapterRemoveSocket st.adapter sid } roomId = 0 := by
    unfold getUserCountInRoom
    split
    · rfl
    · simp [hmem]
  simp only [handleDisconnect, hd, Option.getD_some, hroom, huser]
  rw [if_neg (by simp [hner, hneu]), if_pos hcount, endRandomSession_rooms]
  exact mapGet_mapDelete_self _ roomId

/-- C4: when the sole member of its bound room leaves (or disconnects), the
room record is deleted immediately, it no longer appears in the public-room
directory, and a subsequent joinRoom for that roomId fails with the NotFound
message. -/
theorem empty_room_deleted :
    (∀ (st : ServerState) (sid : String) (d : SocketData) (roomId : String),
      mapGet st.sockets sid = some d → d.roomId = some roomId → roomId ≠ "" →
      (∀ x ∈ adapterMembers st.adapter roomId, x = sid) →
      mapGet (handleLeaveRoom st sid).1.rooms roomId = none ∧
      (∀ e ∈ getPublicRooms (handleLeaveRoom st sid).1, e.roomId ≠ roomId) ∧
      (∀ (sid2 username password : String), username ≠ "" →
        handleJoinRoom (handleLeaveRoom st sid).1 sid2
          { roomId := roomId, username := username, password := password } =
        ((handleLeaveRoom st sid).1, [],
         { success := false, message := some "Room does not exist" }))) ∧
    (∀ (st : ServerState) (sid : String) (d : SocketData) (roomId username : String),
      mapGet st.sockets sid = some d → d.roomId = some roomId →
      d.username = some username → roomId ≠ "" → username ≠ "" →
      (∀ x ∈ adapterMembers st.adapter roomId, x = sid) →
      mapGet (handleDisconnect st sid).1.rooms roomId = none ∧
      (∀ e ∈ getPublicRooms (handleDisconnect st sid).1, e.roomId ≠ roomId) ∧
      (∀ (sid2 username2 password : String), username2 ≠ "" →
        handleJoinRoom (handleDisconnect st sid).1 sid2
          { roomId := roomId, username := username2, password := password } =
        ((handleDisconnect st sid).1, [],
         { success := false, message := some "Room does not exist" }))) := by
  constructor
  · intro st sid d roomId hd hroom hne hlast
    have hdel := handleLeaveRoom_lastMember hd hroom hne hlast
    exact ⟨hdel, getPublicRooms_key_absent hdel,
      fun sid2 username password hu => handleJoinRoom_notFound hne hu hdel⟩
  · intro st sid d roomId username hd hroom huser hner hneu hlast
    have hdel := handleDisconnect_lastMember hd hroom huser hner hneu hlast
    exact ⟨hdel, getPublicRooms_key_absent hdel,
      fun sid2 username2 password hu => handleJoinRoom_notFound hner hu hdel⟩

theorem empty_room_deleted_witness :
    mapGet (handleLeaveRoom fullLobbyState "A").1.rooms "r" = none ∧
    handleJoinRoom (handleLeaveRoom fullLobbyState "A").1 "B"
        { roomId := "r", username := "bob", password := "" } =
      ((handleLeaveRoom fullLobbyState "A").1, [],
       { success := false, message := some "Room does not exist" }) :=
  ⟨(empty_room_deleted.1 fullLobbyState "A"
      { roomId := some "r", username := some "u", randomName := none } "r"
      (by decide) (by decide) (by decide) (by decide)).1,
   (empty_room_deleted.1 fullLobbyState "A"
      { roomId := some "r", username := some "u", randomName := none } "r"
      (by decide) (by decide) (by decide) (by decide)).2.2 "B" "bob" "" (by decide)⟩

/-- C5 counterexample: a successful createRoom of a private room (isPublic
false) still emits the public-room-directory refresh broadcast to all
connections, contrary to the claim that the broadcast happens only for public
rooms. -/
theorem createRoom_private_still_broadcasts :
    ((handleCreateRoom oneSocketState "A"
        { roomId := "r", maxSeats := 2, username := "u", isPublic := false,
          password := "secret1" } 0).2.2).success = true ∧
    ((handleCreateRoom oneSocketState "A"
        { roomId := "r", maxSeats := 2, username := "u", isPublic := false,
          password := "secret1" } 0).2.1).any isPublicRoomsBroadcast = true := by
  constructor <;> decide

/-- C5 (amended): every successful createRoom, public or private, triggers the
public-room-directory refresh broadcast to all connections; a private room is
merely excluded from the directory contents. -/
theorem createRoom_success_broadcasts
    (st : ServerState) (sid : String) (a : CreateRoomArgs) (now : Nat)
    (hsucc : (handleCreateRoom st sid a now).2.2.success = true) :
    ((handleCreateRoom st sid a now).2.1).any isPublicRoomsBroadcast = true := by
  by_cases c1 : a.roomId = "" ∨ a.maxSeats = 0 ∨ a.username = ""
  · exfalso
    simp [handleCreateRoom, c1] at hsucc
  by_cases c2 : a.maxSeats = 0 ∨ 100 < a.maxSeats
  · exfalso
    simp [handleCreateRoom, c1, c2] at hsucc
  by_cases c3 : a.isPublic = false ∧ (jsTrim a.password = "" ∨
      (jsTrim a.password).length < 4 ∨ 50 < (jsTrim a.password).length)
  · exfalso
    simp [handleCreateRoom, c1, c2, c3] at hsucc
  by_cases c4 : (mapGet st.rooms a.roomId).isSome
  · exfalso
    simp [handleCreateRoom, c1, c2, c3, c4] at hsucc
  · simp [handleCreateRoom, c1, c2, c3, c4, isPublicRoomsBroadcast]

theorem createRoom_success_broadcasts_witness :
    ((handleCreateRoom oneSocketState "A"
        { roomId := "r", maxSeats := 2, username := "u", isPublic := false,
          password := "secret1" } 0).2.1).any isPublicRoomsBroadcast = true :=
  createRoom_success_broadcasts oneSocketState "A"
    { roomId := "r", maxSeats := 2, username := "u", isPublic := false,
      password := "secret1" } 0 (by decide)

/-! Idempotence of the cleanup paths. -/

theorem mapGet_updateSocketData_self (socks : List (String × SocketData)) (sid : String)
    (f : SocketData → SocketData) :
    mapGet (updateSocketData socks sid f) sid = (mapGet socks sid).map f := by
  unfold updateSocketData
  cases h : mapGet socks sid with
  | none => simp [h]
  | some d => simp [mapGet_mapSet_self]

theorem handleLeaveRoom_noRoom {st : ServerState} {sid : String}
    (h : ((mapGet st.sockets sid).getD {}).roomId = none) :
    handleLeaveRoom st sid = (st, []) := by
  simp [handleLeaveRoom, h]

/-- C9: cleanup is idempotent: a second consecutive leaveRoom is a no-op that
emits nothing (no duplicate userLeft), and a second consecutive
endRandomSession is a no-op that emits nothing (no duplicate
randomDisconnected), given the duplicate-free queue the invariant guarantees;
both leave the state exactly unchanged. -/
theorem cleanup_idempotent :
    (∀ (st : ServerState) (sid : String),
      handleLeaveRoom (handleLeaveRoom st sid).1 sid = ((handleLeaveRoom st sid).1, [])) ∧
    (∀ (st : ServerState) (sid : String), st.randomWaitingQueue.Nodup →
      endRandomSession (endRandomSession st sid true).1 sid true =
        ((endRandomSession st sid true).1, [])) := by
  constructor
  · intro st sid
    cases hd : mapGet st.sockets sid with
    | none =>
      have h1 : handleLeaveRoom st sid = (st, []) :=
        handleLeaveRoom_noRoom (by simp [hd])
      rw [h1]
      exact h1
    | some d =>
      cases hroom : d.roomId with
      | none =>
        have h1 : handleLeaveRoom st sid = (st, []) :=
          handleLeaveRoom_noRoom (by simp [hd, hroom])
        rw [h1]
        exact h1
      | some roomId =>
        by_cases hne : roomId = ""
        · have h1 : handleLeaveRoom st sid = (st, []) := by
            simp [handleLeaveRoom, hd, hroom, hne]
          rw [h1]
          exact h1
        · apply handleLeaveRoom_noRoom
          have hs : (handleLeaveRoom st sid).1.sockets =
              updateSocketData st.sockets sid
                (fun d => { d with roomId := none, username := none }) := by
            simp only [handleLeaveRoom, hd, Option.getD_some, hroom]
            rw [if_neg hne]
            split <;> rfl
          rw [hs, mapGet_updateSocketData_self, hd]
          simp
  · intro st sid hnd
    have h3 : dequeueRandomSocket (dequeueRandomSocket st.randomWaitingQueue sid) sid =
        dequeueRandomSocket st.randomWaitingQueue sid :=
      dequeue_of_not_mem (not_mem_dequeue_self sid hnd)
    cases hgp : getRandomPartner st.randomPairs sid with
    | none =>
      have h1 : endRandomSession st sid true =
          ({ st with
              randomWaitingQueue := dequeueRandomSocket st.randomWaitingQueue sid },
           []) := by
        simp [endRandomSession, clearRandomPair, hgp]
      rw [h1]
      simp [endRandomSession, clearRandomPair, hgp, h3]
    | some p =>
      have h1 : endRandomSession st sid true =
          ({ st with
              randomWaitingQueue := dequeueRandomSocket st.randomWaitingQueue sid,
              randomPairs := mapDelete (mapDelete st.randomPairs sid) p },
           [Event.randomDisconnected p]) := by
        simp [endRandomSession, clearRandomPair, hgp]
      rw [h1]
      have hnone : mapGet (mapDelete (mapDelete st.randomPairs sid) p) sid = none := by
        rw [mapGet_clear_aux]
        by_cases hsp : sid = p
        · rw [if_pos hsp]
        · rw [if_neg hsp, if_pos rfl]
      have hgp2 : getRandomPartner (mapDelete (mapDelete st.randomPairs sid) p) sid =
          none := by
        simp [getRandomPartner, hnone]
      simp [endRandomSession, clearRandomPair, hgp2, h3]

theorem cleanup_idempotent_witness :
    endRandomSession (endRandomSession initState "A" true).1 "A" true =
      ((endRandomSession initState "A" true).1, []) :=
  cleanup_idempotent.2 initState "A" (by decide)

end VitCord
